import Mathlib

/-!
Shallow embedding of the physics / projection / game-state core of
`src/components/GameCanvas.tsx` (a canvas toss game).  Numbers are
modelled as rationals; the JavaScript numeric literals of the source
are translated exactly (0.5 = 1/2, 0.98 = 49/50, ...).
-/

namespace Renglaji

/-- Structure Point3D from `src/types.ts`: position or velocity in simulation space. -/
structure Point3D where
  x : ℚ
  y : ℚ
  z : ℚ
  deriving Repr, DecidableEq

/-- A 2D pointer coordinate (drag start / drag current). -/
structure Point2D where
  x : ℚ
  y : ℚ
  deriving Repr, DecidableEq

/-- Enumeration GameState from `src/types.ts`. -/
inductive GameState where
  | IDLE
  | DRAGGING
  | THROWN
  | LANDED
  | MISSED
  deriving Repr, DecidableEq

/-- Constant `GRAVITY = 0.5`. -/
def GRAVITY : ℚ := 1/2

/-- Constant `AIR_RESISTANCE = 0.98`. -/
def AIR_RESISTANCE : ℚ := 49/50

/-- Constant `WIND_FACTOR = 0.05`. -/
def WIND_FACTOR : ℚ := 1/20

/-- Constant `THROW_SCALE = 0.15`. -/
def THROW_SCALE : ℚ := 3/20

/-- Constant `PERSPECTIVE = 800` (focal length). -/
def PERSPECTIVE : ℚ := 800

/-- Constant `BIN_Z = 600` (distance to bin). -/
def BIN_Z : ℚ := 600

/-- Constant `BIN_RADIUS = 60`. -/
def BIN_RADIUS : ℚ := 60

/-- Local constant `floorY = 300` inside `render`. -/
def floorY : ℚ := 300

/-- Local constant `binRimY = 150` inside `render`. -/
def binRimY : ℚ := 150

/-- The mutable `physicsState.current` record of `GameCanvas`. -/
structure PhysicsState where
  ball : Point3D
  velocity : Point3D
  dragStart : Point2D
  dragCurrent : Point2D
  deriving Repr, DecidableEq

/-- The observable component state: React phase/score state, the mutable
physics record, the list of values passed to `onScoreUpdate` (most recent
first), whether a `setTimeout(resetBall, 1000)` is currently scheduled, and
whether a `requestAnimationFrame` callback is currently scheduled. -/
structure ComponentState where
  phase : GameState
  physics : PhysicsState
  score : ℕ
  reported : List ℕ
  pendingReset : Bool
  animationScheduled : Bool
  deriving Repr, DecidableEq

/-- Initial state: `useState(GameState.IDLE)`, `useState(0)`, and the
`useRef` initialiser (ball and velocity at the origin). -/
def initState : ComponentState :=
  { phase := .IDLE
    physics :=
      { ball := ⟨0, 0, 0⟩
        velocity := ⟨0, 0, 0⟩
        dragStart := ⟨0, 0⟩
        dragCurrent := ⟨0, 0⟩ }
    score := 0
    reported := []
    pendingReset := false
    animationScheduled := true }

/-- Function `resetBall(width, height)` of the source: repositions the ball to
`{x: 0, y: height/2 - 100, z: 0}`, zeroes the velocity and sets the
phase to IDLE.  Firing the scheduled timeout consumes it. -/
def resetBall (height : ℚ) (s : ComponentState) : ComponentState :=
  { s with
    physics :=
      { s.physics with
        ball := ⟨0, height / 2 - 100, 0⟩
        velocity := ⟨0, 0, 0⟩ }
    phase := .IDLE }

/-- Handler `handlePointerDown` of the source: only acts while IDLE; records the gesture start. -/
def handlePointerDown (p : Point2D) (s : ComponentState) : ComponentState :=
  if s.phase ≠ .IDLE then s
  else
    { s with
      phase := .DRAGGING
      physics := { s.physics with dragStart := p, dragCurrent := p } }

/-- Handler `handlePointerMove` of the source: only acts while DRAGGING; updates the gesture. -/
def handlePointerMove (p : Point2D) (s : ComponentState) : ComponentState :=
  if s.phase = .DRAGGING then
    { s with physics := { s.physics with dragCurrent := p } }
  else s

/-- Handler `handlePointerUp` of the source: converts the drag gesture into a throw, or cancels
to IDLE when `Math.abs(Math.min(dy, 0)) < 50`. -/
def handlePointerUp (s : ComponentState) : ComponentState :=
  if s.phase ≠ .DRAGGING then s
  else
    let dx := s.physics.dragCurrent.x - s.physics.dragStart.x
    let dy := s.physics.dragCurrent.y - s.physics.dragStart.y
    let throwPowerY := min dy 0
    if |throwPowerY| < 50 then
      { s with phase := .IDLE }
    else
      let vz := |throwPowerY| * THROW_SCALE * (3/2)
      let vy := throwPowerY * THROW_SCALE * (4/5)
      let vx := dx * THROW_SCALE * (1/2)
      { s with
        physics := { s.physics with velocity := ⟨vx, vy, vz⟩ }
        phase := .THROWN }

/-- One Euler integration step of the PHYSICS section of `render`
(lines 107-117): gravity, wind, air resistance, then position update.
Returns (new ball, new velocity). -/
def integrate (windSpeed : ℚ) (ball velocity : Point3D) :
    Point3D × Point3D :=
  let vy := velocity.y + GRAVITY
  let vx := (velocity.x + windSpeed * WIND_FACTOR) * AIR_RESISTANCE
  let vz := velocity.z * AIR_RESISTANCE
  let v : Point3D := ⟨vx, vy, vz⟩
  (⟨ball.x + vx, ball.y + vy, ball.z + vz⟩, v)

/-- The nested scoring conditional of `render` (lines 129-147):
depth band, then rim-height tolerance, then horizontal radius. -/
def scoredCheck (ball : Point3D) : Bool :=
  if BIN_Z ≤ ball.z ∧ ball.z ≤ BIN_Z + 50 then
    if |ball.y - binRimY| < 50 then
      decide (|ball.x| < BIN_RADIUS)
    else false
  else false

/-- The miss conditional of `render` (line 150):
`ball.y > floorY + 200 || ball.z > BIN_Z + 200`. -/
def missedCheck (ball : Point3D) : Bool :=
  decide (ball.y > floorY + 200 ∨ ball.z > BIN_Z + 200)

/-- One iteration of the PHYSICS part of the `render` loop.  While THROWN:
integrate, then the scored conditional (sets LANDED, increments the score,
reports it through `onScoreUpdate`, schedules the reset timeout), then the
miss conditional (sets MISSED, schedules the reset timeout); both
conditionals run in program order on the post-integration ball.  While
IDLE or DRAGGING the ball is pinned to `{x: 0, y: 300, z: 0}`.  While
LANDED or MISSED nothing is simulated. -/
def frameStep (windSpeed : ℚ) (s : ComponentState) : ComponentState :=
  match s.phase with
  | .THROWN =>
      let bv := integrate windSpeed s.physics.ball s.physics.velocity
      let s1 : ComponentState :=
        { s with physics := { s.physics with ball := bv.1, velocity := bv.2 } }
      let s2 : ComponentState :=
        if scoredCheck bv.1 then
          { s1 with
            phase := .LANDED
            score := s1.score + 1
            reported := (s1.score + 1) :: s1.reported
            pendingReset := true }
        else s1
      if missedCheck bv.1 then
        { s2 with phase := .MISSED, pendingReset := true }
      else s2
  | .IDLE =>
      { s with physics := { s.physics with ball := ⟨0, 300, 0⟩ } }
  | .DRAGGING =>
      { s with physics := { s.physics with ball := ⟨0, 300, 0⟩ } }
  | _ => s

/-- Structure ScreenPoint: output of the projection helper. -/
structure ScreenPoint where
  x : ℚ
  y : ℚ
  scale : ℚ
  deriving Repr, DecidableEq

/-- The `project` helper of `render` (lines 198-205):
`scale = PERSPECTIVE / (PERSPECTIVE + p.z)`,
`x = centerX + p.x * scale`, `y = centerY + p.y * scale`. -/
def project (centerX centerY : ℚ) (p : Point3D) : ScreenPoint :=
  let scale := PERSPECTIVE / (PERSPECTIVE + p.z)
  { x := centerX + p.x * scale
    y := centerY + p.y * scale
    scale := scale }

/-- Events driving the component: pointer handlers, a render-loop frame
with the current wind speed, the resize-triggered reset (which calls
`resetBall` only while IDLE), and the firing of a scheduled reset
timeout. -/
inductive Event where
  | pointerDown (p : Point2D)
  | pointerMove (p : Point2D)
  | pointerUp
  | frame (windSpeed : ℚ)
  | resize (height : ℚ)
  | timerFire (height : ℚ)

/-- Small-step semantics of the component: how each event transforms the
observable state. -/
def step (e : Event) (s : ComponentState) : ComponentState :=
  match e with
  | .pointerDown p => handlePointerDown p s
  | .pointerMove p => handlePointerMove p s
  | .pointerUp => handlePointerUp s
  | .frame w => frameStep w s
  | .resize h => if s.phase = .IDLE then resetBall h s else s
  | .timerFire h =>
      if s.pendingReset then { resetBall h s with pendingReset := false }
      else s

/-- States reachable from the initial state by any event sequence. -/
inductive Reachable : ComponentState → Prop where
  | init : Reachable initState
  | next : ∀ (e : Event) (s : ComponentState),
      Reachable s → Reachable (step e s)

/-- The `useEffect` cleanup (line 278 of the source):
`return () => cancelAnimationFrame(animationFrameId)`.  It cancels the
scheduled animation frame and nothing else; in particular a scheduled
`setTimeout(resetBall, 1000)` is not cleared. -/
def effectCleanup (s : ComponentState) : ComponentState :=
  { s with animationScheduled := false }

/-! ## Helper lemmas -/

/-- Characterisation of the scored conditional as a plain conjunction with
the constants inlined. -/
theorem scoredCheck_eq_true_iff (b : Point3D) :
    scoredCheck b = true ↔
      (600 ≤ b.z ∧ b.z ≤ 650 ∧ |b.y - 150| < 50 ∧ |b.x| < 60) := by
  have h650 : BIN_Z + 50 = (650 : ℚ) := by norm_num [BIN_Z]
  unfold scoredCheck
  rw [h650]
  simp only [BIN_Z, binRimY, BIN_RADIUS]
  split_ifs with h1 h2 <;> simp_all

/-- Characterisation of the miss conditional with the constants inlined. -/
theorem missedCheck_eq_true_iff (b : Point3D) :
    missedCheck b = true ↔ (b.y > 500 ∨ b.z > 800) := by
  unfold missedCheck
  simp only [floorY, BIN_Z]
  norm_num

/-- The scored and missed conditions are mutually exclusive: a scoring
ball has height below 200 and depth at most 650. -/
theorem scored_not_missed (b : Point3D) (h : scoredCheck b = true) :
    missedCheck b = false := by
  rw [scoredCheck_eq_true_iff] at h
  obtain ⟨hz1, hz2, hy, hx⟩ := h
  rw [abs_lt] at hy
  simp only [missedCheck, floorY, BIN_Z, decide_eq_false_iff_not, not_or,
    not_lt]
  constructor <;> linarith [hy.1, hy.2]

/-- Reduction of `frameStep` while THROWN: the physics record always
receives the integrated ball and velocity, whatever the outcome checks do. -/
theorem frameStep_thrown_physics (w : ℚ) (s : ComponentState)
    (h : s.phase = .THROWN) :
    (frameStep w s).physics =
      { s.physics with
        ball := (integrate w s.physics.ball s.physics.velocity).1
        velocity := (integrate w s.physics.ball s.physics.velocity).2 } := by
  obtain ⟨ph, phys, sc, rep, pr, an⟩ := s
  cases h
  simp only [frameStep]
  split_ifs <;> rfl

/-- Reduction of `frameStep` while THROWN: the resulting phase as a
function of the two outcome checks, in the program order of the source. -/
theorem frameStep_thrown_phase (w : ℚ) (s : ComponentState)
    (h : s.phase = .THROWN) :
    (frameStep w s).phase =
      (if missedCheck (integrate w s.physics.ball s.physics.velocity).1 then
        GameState.MISSED
       else if scoredCheck (integrate w s.physics.ball s.physics.velocity).1
       then GameState.LANDED
       else GameState.THROWN) := by
  obtain ⟨ph, phys, sc, rep, pr, an⟩ := s
  cases h
  simp only [frameStep]
  split_ifs <;> rfl

/-! ## Claims -/

/-- C1: while phase = Thrown the resolver reports scored only when the
three geometric conditions hold simultaneously on the post-integration
ball position — depth z in [BIN_Z, BIN_Z + 50] = [600, 650], height
within 50 of the rim height 150, horizontal offset |x| < 60 — and
flipping any single condition to false yields not scored. -/
theorem C1_scoring_conjunction (w : ℚ) (s : ComponentState) (b : Point3D) :
    (scoredCheck b = true ↔
      (600 ≤ b.z ∧ b.z ≤ 650) ∧ |b.y - 150| < 50 ∧ |b.x| < 60) ∧
    (¬(600 ≤ b.z ∧ b.z ≤ 650) → scoredCheck b = false) ∧
    (¬(|b.y - 150| < 50) → scoredCheck b = false) ∧
    (¬(|b.x| < 60) → scoredCheck b = false) ∧
    (s.phase = .THROWN →
      ((frameStep w s).phase = .LANDED ↔
        scoredCheck (integrate w s.physics.ball s.physics.velocity).1
          = true)) := by
  have hiff := scoredCheck_eq_true_iff b
  have hfalse :
      ∀ hn : ¬(600 ≤ b.z ∧ b.z ≤ 650 ∧ |b.y - 150| < 50 ∧ |b.x| < 60),
      scoredCheck b = false := by
    intro hn
    cases hb : scoredCheck b
    · rfl
    · exact absurd (hiff.mp hb) hn
  refine ⟨by tauto, fun hn => hfalse (by tauto), fun hn => hfalse (by tauto),
    fun hn => hfalse (by tauto), fun hph => ?_⟩
  rw [frameStep_thrown_phase w s hph]
  cases hs : scoredCheck (integrate w s.physics.ball s.physics.velocity).1
  · cases hm : missedCheck (integrate w s.physics.ball s.physics.velocity).1
      <;> simp [hs, hm]
  · rw [scored_not_missed _ hs]
    simp

/-- Witness for C1 at a concrete ball outside the depth band. -/
theorem C1_scoring_conjunction_witness :
    scoredCheck ⟨0, 150, 0⟩ = false :=
  (C1_scoring_conjunction 0 initState ⟨0, 150, 0⟩).2.1 (by norm_num)

/-- C2: one Thrown integration step, in source order: velocity.y gains
exactly the gravity 0.5 (so it strictly increases, never damped),
velocity.x gains wind.speed * 0.05 and is then damped by 0.98 together
with velocity.z, and each position component gains the corresponding
updated velocity component. -/
theorem C2_integration_step (w : ℚ) (s : ComponentState)
    (h : s.phase = .THROWN) :
    (frameStep w s).physics.velocity =
      ⟨(s.physics.velocity.x + w * (1/20)) * (49/50),
       s.physics.velocity.y + 1/2,
       s.physics.velocity.z * (49/50)⟩ ∧
    (frameStep w s).physics.ball =
      ⟨s.physics.ball.x + (s.physics.velocity.x + w * (1/20)) * (49/50),
       s.physics.ball.y + (s.physics.velocity.y + 1/2),
       s.physics.ball.z + s.physics.velocity.z * (49/50)⟩ ∧
    s.physics.velocity.y < (frameStep w s).physics.velocity.y := by
  rw [frameStep_thrown_physics w s h]
  refine ⟨rfl, rfl, ?_⟩
  show s.physics.velocity.y < s.physics.velocity.y + GRAVITY
  rw [GRAVITY]
  linarith

/-- A concrete THROWN state used as a witness input. -/
def exampleThrown : ComponentState :=
  { initState with
    phase := .THROWN
    physics :=
      { initState.physics with ball := ⟨0, 0, 0⟩, velocity := ⟨1, 2, 3⟩ } }

/-- Witness for C2 at wind speed 2 on `exampleThrown`. -/
theorem C2_integration_step_witness :
    (frameStep 2 exampleThrown).physics.velocity =
      ⟨539/500, 5/2, 147/50⟩ ∧
    (frameStep 2 exampleThrown).physics.ball = ⟨539/500, 5/2, 147/50⟩ ∧
    (2 : ℚ) < (frameStep 2 exampleThrown).physics.velocity.y := by
  have h := C2_integration_step 2 exampleThrown rfl
  simp only [exampleThrown, initState] at h
  norm_num at h
  exact h

/-- C3: while Thrown, the outcome is Missed exactly when the
post-integration height exceeds 500 or the depth exceeds 800; and any
ball position satisfying both the scored and the missed conditions in
one frame is recorded as scored (the two conditions are in fact
mutually exclusive, so the tie-break holds vacuously). -/
theorem C3_missed_condition (w : ℚ) (s : ComponentState)
    (h : s.phase = .THROWN) :
    ((frameStep w s).phase = .MISSED ↔
      ((integrate w s.physics.ball s.physics.velocity).1.y > 500 ∨
       (integrate w s.physics.ball s.physics.velocity).1.z > 800)) ∧
    (scoredCheck (integrate w s.physics.ball s.physics.velocity).1 = true ∧
       missedCheck (integrate w s.physics.ball s.physics.velocity).1 = true →
      (frameStep w s).phase = .LANDED) := by
  rw [frameStep_thrown_phase w s h]
  constructor
  · rw [← missedCheck_eq_true_iff (integrate w s.physics.ball s.physics.velocity).1]
    cases hm : missedCheck (integrate w s.physics.ball s.physics.velocity).1
    · cases hs : scoredCheck (integrate w s.physics.ball s.physics.velocity).1
        <;> simp [hm, hs]
    · simp [hm]
  · rintro ⟨hs, hm⟩
    rw [scored_not_missed _ hs] at hm
    simp at hm

/-- Helper: a pointer-up ending a drag with |min(dy, 0)| < 50 returns
the phase to Idle and changes nothing else; the transition to Thrown
requires dy ≤ -50. -/
theorem handlePointerUp_weak_spec (s : ComponentState)
    (h : s.phase = .DRAGGING) :
    (|min (s.physics.dragCurrent.y - s.physics.dragStart.y) 0| < 50 →
      handlePointerUp s = { s with phase := .IDLE }) ∧
    ((handlePointerUp s).phase = .THROWN →
      s.physics.dragCurrent.y - s.physics.dragStart.y ≤ -50) := by
  unfold handlePointerUp
  rw [if_neg (by simp [h])]
  set dy := s.physics.dragCurrent.y - s.physics.dragStart.y with hdy
  dsimp only
  split_ifs with hw
  · exact ⟨fun _ => rfl, by intro hph; simp at hph⟩
  · refine ⟨fun hc => absurd hc hw, fun _ => ?_⟩
    rw [not_lt, le_abs] at hw
    rcases hw with hw | hw
    · have h0 : min dy 0 ≤ 0 := min_le_right dy 0
      linarith [min_le_left dy 0]
    · rcases min_cases dy 0 with ⟨heq, _⟩ | ⟨heq, _⟩
      · linarith [heq ▸ hw]
      · rw [heq] at hw
        linarith

/-- C4: a pointer-up ending a drag with |min(dy, 0)| < 50 (in
particular every purely horizontal or downward drag, whatever dx is)
returns the phase to Idle with no velocity imparted — the state is
unchanged except for the phase; the transition to Thrown happens only
when the upward drag component reaches the 50-unit threshold, i.e.
dy ≤ -50. -/
theorem C4_weak_drag_cancels (s : ComponentState) (h : s.phase = .DRAGGING) :
    (|min (s.physics.dragCurrent.y - s.physics.dragStart.y) 0| < 50 →
      handlePointerUp s = { s with phase := .IDLE }) ∧
    ((handlePointerUp s).phase = .THROWN →
      s.physics.dragCurrent.y - s.physics.dragStart.y ≤ -50) :=
  handlePointerUp_weak_spec s h

/-- A concrete DRAGGING state for the too-weak gesture (100,500) to
(100,480), dy = -20. -/
def exampleWeakDrag : ComponentState :=
  { initState with
    phase := .DRAGGING
    physics :=
      { initState.physics with
        dragStart := ⟨100, 500⟩
        dragCurrent := ⟨100, 480⟩ } }

/-- Witness for C4 on the dy = -20 gesture. -/
theorem C4_weak_drag_cancels_witness :
    handlePointerUp exampleWeakDrag = { exampleWeakDrag with phase := .IDLE } :=
  (C4_weak_drag_cancels exampleWeakDrag rfl).1
    (by norm_num [exampleWeakDrag, initState])

/-- Helper: a committing pointer-up (dy ≤ -50) transitions to Thrown
and sets the initial velocity from the gesture vector. -/
theorem handlePointerUp_commit_spec (s : ComponentState)
    (h : s.phase = .DRAGGING)
    (hdy : s.physics.dragCurrent.y - s.physics.dragStart.y ≤ -50) :
    (handlePointerUp s).phase = .THROWN ∧
    (handlePointerUp s).physics.velocity =
      ⟨(s.physics.dragCurrent.x - s.physics.dragStart.x) * (3/20) * (1/2),
       (s.physics.dragCurrent.y - s.physics.dragStart.y) * (3/20) * (4/5),
       |s.physics.dragCurrent.y - s.physics.dragStart.y| * (3/20) * (3/2)⟩
      := by
  unfold handlePointerUp
  rw [if_neg (by simp [h])]
  dsimp only
  set dy := s.physics.dragCurrent.y - s.physics.dragStart.y with hdy2
  have hmin : min dy 0 = dy := min_eq_left (by linarith)
  rw [hmin]
  rw [if_neg (by rw [abs_of_nonpos (by linarith)]; linarith)]
  exact ⟨rfl, by rw [THROW_SCALE]⟩

/-- C5: a committing pointer-up (dy ≤ -50) transitions to Thrown with
initial velocity vx = dx * 0.15 * 0.5, vy = dy * 0.15 * 0.8 (negative,
upward lift) and vz = |dy| * 0.15 * 1.5 (positive, forward in depth). -/
theorem C5_throw_velocity (s : ComponentState) (h : s.phase = .DRAGGING)
    (hdy : s.physics.dragCurrent.y - s.physics.dragStart.y ≤ -50) :
    (handlePointerUp s).phase = .THROWN ∧
    (handlePointerUp s).physics.velocity =
      ⟨(s.physics.dragCurrent.x - s.physics.dragStart.x) * (3/20) * (1/2),
       (s.physics.dragCurrent.y - s.physics.dragStart.y) * (3/20) * (4/5),
       |s.physics.dragCurrent.y - s.physics.dragStart.y| * (3/20) * (3/2)⟩ :=
  handlePointerUp_commit_spec s h hdy

/-- A concrete DRAGGING state for the committing gesture (100,500) to
(100,430), dy = -70, dx = 0. -/
def exampleStrongDrag : ComponentState :=
  { initState with
    phase := .DRAGGING
    physics :=
      { initState.physics with
        dragStart := ⟨100, 500⟩
        dragCurrent := ⟨100, 430⟩ } }

/-- Witness for C5 on the dy = -70 gesture: Thrown with zero sideways
velocity, upward (negative) vertical velocity and positive depth
velocity. -/
theorem C5_throw_velocity_witness :
    (handlePointerUp exampleStrongDrag).phase = .THROWN ∧
    (handlePointerUp exampleStrongDrag).physics.velocity.x = 0 ∧
    (handlePointerUp exampleStrongDrag).physics.velocity.y = -42/5 ∧
    (handlePointerUp exampleStrongDrag).physics.velocity.z = 63/4 ∧
    (handlePointerUp exampleStrongDrag).physics.velocity.y < 0 ∧
    0 < (handlePointerUp exampleStrongDrag).physics.velocity.z := by
  have h := C5_throw_velocity exampleStrongDrag rfl
    (by norm_num [exampleStrongDrag, initState])
  rw [h.2]
  refine ⟨h.1, ?_, ?_, ?_, ?_, ?_⟩ <;>
    norm_num [exampleStrongDrag, initState, abs_of_nonpos]

/-- C6: the projection returns exactly scale = 800 / (800 + z),
x = originX + p.x * scale, y = originY + p.y * scale; identical inputs
yield identical ScreenPoint coordinates and scale. -/
theorem C6_projection_formula (ox oy : ℚ) (p : Point3D) :
    project ox oy p =
      { x := ox + p.x * (800 / (800 + p.z))
        y := oy + p.y * (800 / (800 + p.z))
        scale := 800 / (800 + p.z) } ∧
    project ox oy p = project ox oy p :=
  ⟨rfl, rfl⟩

/-- Reduction of `frameStep` on a scoring frame: the full resulting
state (LANDED, incremented and reported score, reset scheduled). -/
theorem frameStep_scored (w : ℚ) (s : ComponentState)
    (h : s.phase = .THROWN)
    (hs : scoredCheck (integrate w s.physics.ball s.physics.velocity).1
      = true) :
    frameStep w s =
      { s with
        phase := .LANDED
        physics :=
          { s.physics with
            ball := (integrate w s.physics.ball s.physics.velocity).1
            velocity := (integrate w s.physics.ball s.physics.velocity).2 }
        score := s.score + 1
        reported := (s.score + 1) :: s.reported
        pendingReset := true } := by
  obtain ⟨ph, phys, sc, rep, pr, an⟩ := s
  cases h
  simp only [frameStep] at hs ⊢
  rw [hs, scored_not_missed _ hs]
  simp

/-- C7: on a scoring frame the phase becomes Landed, the score counter
increments by exactly 1 and the new value is reported through
`onScoreUpdate`; when the scheduled reset fires after the fixed delay,
the phase returns to Idle with zero velocity, the ball is repositioned
by `resetBall`, and the following Idle frame pins it to the launch
point (0, 300, 0). -/
theorem C7_score_side_effects (w : ℚ) (s : ComponentState)
    (h : s.phase = .THROWN)
    (hs : scoredCheck (integrate w s.physics.ball s.physics.velocity).1
      = true) :
    (frameStep w s).phase = .LANDED ∧
    (frameStep w s).score = s.score + 1 ∧
    (frameStep w s).reported = (s.score + 1) :: s.reported ∧
    (frameStep w s).pendingReset = true ∧
    (∀ hgt : ℚ,
      (step (.timerFire hgt) (frameStep w s)).phase = .IDLE ∧
      (step (.timerFire hgt) (frameStep w s)).physics.velocity = ⟨0, 0, 0⟩ ∧
      (step (.timerFire hgt) (frameStep w s)).physics.ball =
        ⟨0, hgt / 2 - 100, 0⟩ ∧
      ∀ w2 : ℚ,
        (step (.frame w2)
          (step (.timerFire hgt) (frameStep w s))).physics.ball =
          ⟨0, 300, 0⟩) := by
  rw [frameStep_scored w s h hs]
  exact ⟨rfl, rfl, rfl, rfl, fun hgt => ⟨rfl, rfl, rfl, fun w2 => rfl⟩⟩

/-- A concrete THROWN state whose next integration step scores: the
ball moves from (0, 149, 599) to (0, 149.5, 600.96), inside the bin. -/
def exampleScoring : ComponentState :=
  { initState with
    phase := .THROWN
    physics :=
      { initState.physics with
        ball := ⟨0, 149, 599⟩
        velocity := ⟨0, 0, 2⟩ } }

/-- Witness for C7 on `exampleScoring` with canvas height 800. -/
theorem C7_score_side_effects_witness :
    (frameStep 0 exampleScoring).phase = .LANDED ∧
    (frameStep 0 exampleScoring).score = 1 ∧
    (frameStep 0 exampleScoring).reported = [1] ∧
    (frameStep 0 exampleScoring).pendingReset = true ∧
    (step (.timerFire 800) (frameStep 0 exampleScoring)).phase = .IDLE ∧
    (step (.timerFire 800) (frameStep 0 exampleScoring)).physics.velocity
      = ⟨0, 0, 0⟩ ∧
    (step (.frame 0)
      (step (.timerFire 800) (frameStep 0 exampleScoring))).physics.ball
      = ⟨0, 300, 0⟩ := by
  have hs : scoredCheck
      (integrate 0 exampleScoring.physics.ball
        exampleScoring.physics.velocity).1 = true := by
    rw [scoredCheck_eq_true_iff]
    simp only [exampleScoring, initState, integrate, GRAVITY, AIR_RESISTANCE,
      WIND_FACTOR, abs_lt]
    norm_num
  have h := C7_score_side_effects 0 exampleScoring rfl hs
  have h5 := h.2.2.2.2 800
  exact ⟨h.1, by simpa using h.2.1, by simpa using h.2.2.1, h.2.2.2.1,
    h5.1, h5.2.1, by simpa using h5.2.2.2 0⟩

/-- C8: in every render-loop iteration the ball is integrated only while
Thrown; while Idle or Dragging the position is pinned to the launch
point (0, 300, 0) and the velocity is untouched; while Landed or Missed
the state is untouched. -/
theorem C8_integrate_only_thrown (w : ℚ) (s : ComponentState) :
    ((s.phase = .IDLE ∨ s.phase = .DRAGGING) →
      (frameStep w s).physics.ball = ⟨0, 300, 0⟩ ∧
      (frameStep w s).physics.velocity = s.physics.velocity ∧
      (frameStep w s).phase = s.phase) ∧
    ((s.phase = .LANDED ∨ s.phase = .MISSED) → frameStep w s = s) ∧
    (s.phase = .THROWN →
      (frameStep w s).physics.ball =
        (integrate w s.physics.ball s.physics.velocity).1 ∧
      (frameStep w s).physics.velocity =
        (integrate w s.physics.ball s.physics.velocity).2) := by
  obtain ⟨ph, phys, sc, rep, pr, an⟩ := s
  refine ⟨fun h => ?_, fun h => ?_, fun h => ?_⟩
  · rcases h with h | h <;> dsimp only at h <;> subst h <;>
      exact ⟨rfl, rfl, rfl⟩
  · rcases h with h | h <;> dsimp only at h <;> subst h <;> rfl
  · dsimp only at h
    subst h
    rw [frameStep_thrown_physics w _ rfl]
    exact ⟨rfl, rfl⟩

/-- Witness for C8 at the initial (Idle) state. -/
theorem C8_integrate_only_thrown_witness :
    (frameStep 0 initState).physics.ball = ⟨0, 300, 0⟩ ∧
    (frameStep 0 initState).physics.velocity = ⟨0, 0, 0⟩ ∧
    (frameStep 0 initState).phase = .IDLE := by
  have h := (C8_integrate_only_thrown 0 initState).1 (Or.inl rfl)
  exact ⟨h.1, h.2.1, h.2.2⟩

/-- Invariant backing C9: the ball depth and the depth velocity are
never negative. -/
def SafeZ (s : ComponentState) : Prop :=
  0 ≤ s.physics.ball.z ∧ 0 ≤ s.physics.velocity.z

/-- Every component event preserves the depth invariant. -/
theorem step_preserves_SafeZ (e : Event) (s : ComponentState)
    (h : SafeZ s) : SafeZ (step e s) := by
  obtain ⟨hb, hv⟩ := h
  unfold SafeZ
  cases e with
  | pointerDown p =>
      simp only [step, handlePointerDown]
      split_ifs <;> exact ⟨hb, hv⟩
  | pointerMove p =>
      simp only [step, handlePointerMove]
      split_ifs <;> exact ⟨hb, hv⟩
  | pointerUp =>
      simp only [step, handlePointerUp]
      split_ifs
      · exact ⟨hb, hv⟩
      · exact ⟨hb, hv⟩
      · refine ⟨hb, ?_⟩
        show (0:ℚ) ≤
          |min (s.physics.dragCurrent.y - s.physics.dragStart.y) 0| *
            THROW_SCALE * (3/2)
        rw [THROW_SCALE]
        positivity
  | frame w =>
      simp only [step]
      obtain ⟨ph, phys, sc, rep, pr, an⟩ := s
      cases ph
      case THROWN =>
        rw [frameStep_thrown_physics w _ rfl]
        constructor
        · show (0:ℚ) ≤ phys.ball.z + phys.velocity.z * AIR_RESISTANCE
          rw [AIR_RESISTANCE]
          nlinarith
        · show (0:ℚ) ≤ phys.velocity.z * AIR_RESISTANCE
          rw [AIR_RESISTANCE]
          nlinarith
      case IDLE => exact ⟨le_refl 0, hv⟩
      case DRAGGING => exact ⟨le_refl 0, hv⟩
      case LANDED => exact ⟨hb, hv⟩
      case MISSED => exact ⟨hb, hv⟩
  | resize hgt =>
      simp only [step, resetBall]
      split_ifs
      · exact ⟨le_refl 0, le_refl 0⟩
      · exact ⟨hb, hv⟩
  | timerFire hgt =>
      simp only [step, resetBall]
      split_ifs
      · exact ⟨le_refl 0, le_refl 0⟩
      · exact ⟨hb, hv⟩

/-- The depth invariant holds in every reachable state. -/
theorem reachable_SafeZ (s : ComponentState) (h : Reachable s) : SafeZ s := by
  induction h with
  | init => exact ⟨le_refl 0, le_refl 0⟩
  | next e t _ ih => exact step_preserves_SafeZ e t ih

/-- C9: in every reachable state the ball depth is nonnegative — the
ball is pinned or reset at z = 0, every committed throw starts with
velocity.z = |min(dy, 0)| * 0.225 ≥ 11.25, and integration keeps the
depth velocity nonnegative — so the projection divisor 800 + z stays at
least 800 (never zero) and the returned scale always lies in (0, 1]. -/
theorem C9_projection_safe (s : ComponentState) (h : Reachable s) :
    0 ≤ s.physics.ball.z ∧
    (800 : ℚ) ≤ 800 + s.physics.ball.z ∧
    800 + s.physics.ball.z ≠ 0 ∧
    (∀ cx cy : ℚ,
      0 < (project cx cy s.physics.ball).scale ∧
      (project cx cy s.physics.ball).scale ≤ 1) ∧
    (∀ t : ComponentState, t.phase = .DRAGGING →
      (handlePointerUp t).phase = .THROWN →
      (handlePointerUp t).physics.velocity.z =
        |min (t.physics.dragCurrent.y - t.physics.dragStart.y) 0| * (9/40) ∧
      45/4 ≤ (handlePointerUp t).physics.velocity.z) := by
  have hz := (reachable_SafeZ s h).1
  refine ⟨hz, by linarith, ne_of_gt (by linarith), fun cx cy => ?_,
    fun t ht hth => ?_⟩
  · constructor
    · show (0:ℚ) < PERSPECTIVE / (PERSPECTIVE + s.physics.ball.z)
      rw [PERSPECTIVE]
      exact div_pos (by norm_num) (by linarith)
    · show PERSPECTIVE / (PERSPECTIVE + s.physics.ball.z) ≤ 1
      rw [PERSPECTIVE, div_le_one (by linarith)]
      linarith
  · have hdy := (handlePointerUp_weak_spec t ht).2 hth
    have hveq := (handlePointerUp_commit_spec t ht hdy).2
    set dy := t.physics.dragCurrent.y - t.physics.dragStart.y with hdyd
    have habs : |dy| = -dy := abs_of_nonpos (by linarith)
    have hmin : min dy 0 = dy := min_eq_left (by linarith)
    rw [hveq]
    dsimp only
    constructor
    · rw [hmin, habs]
      ring
    · rw [habs]
      linarith

/-- Witness for C9 at the initial state and the dy = -70 gesture. -/
theorem C9_projection_safe_witness :
    0 ≤ initState.physics.ball.z ∧
    0 < (project 0 0 initState.physics.ball).scale ∧
    (project 0 0 initState.physics.ball).scale ≤ 1 ∧
    45/4 ≤ (handlePointerUp exampleStrongDrag).physics.velocity.z := by
  have h := C9_projection_safe initState Reachable.init
  have h4 := h.2.2.2.1 0 0
  have hth : (handlePointerUp exampleStrongDrag).phase = .THROWN :=
    (handlePointerUp_commit_spec exampleStrongDrag rfl
      (by norm_num [exampleStrongDrag, initState])).1
  have h5 := h.2.2.2.2 exampleStrongDrag rfl hth
  exact ⟨h.1, h4.1, h4.2, h5.2⟩

/-- The component state right after the scoring frame on
`exampleScoring`: LANDED with the 1-second reset timeout scheduled. -/
def landedState : ComponentState := frameStep 0 exampleScoring

/-- C10 (code bug in the source): the `useEffect` cleanup only calls
`cancelAnimationFrame`; a reset timeout scheduled on scoring survives
the teardown, and firing it afterwards still executes `resetBall`,
mutating the discarded state (back to IDLE) — the claim that the
deferred reset is cancelled alongside the loop teardown fails. -/
theorem C10_cleanup_leaks_reset_timeout :
    landedState.phase = .LANDED ∧
    landedState.pendingReset = true ∧
    (effectCleanup landedState).animationScheduled = false ∧
    (effectCleanup landedState).pendingReset = true ∧
    step (.timerFire 800) (effectCleanup landedState) ≠
      effectCleanup landedState ∧
    (step (.timerFire 800) (effectCleanup landedState)).phase = .IDLE := by
  have hs : scoredCheck
      (integrate 0 exampleScoring.physics.ball
        exampleScoring.physics.velocity).1 = true := by
    rw [scoredCheck_eq_true_iff]
    simp only [exampleScoring, initState, integrate, GRAVITY, AIR_RESISTANCE,
      WIND_FACTOR, abs_lt]
    norm_num
  have hL := frameStep_scored 0 exampleScoring rfl hs
  unfold landedState
  rw [hL]
  refine ⟨rfl, rfl, rfl, rfl, ?_, rfl⟩
  intro heq
  have hph := congrArg ComponentState.phase heq
  simp [step, effectCleanup, resetBall] at hph

/-- A concrete THROWN state whose next step misses: the ball falls past
the floor-overshoot threshold. -/
def exampleMissing : ComponentState :=
  { initState with
    phase := .THROWN
    physics :=
      { initState.physics with
        ball := ⟨0, 0, 0⟩
        velocity := ⟨0, 600, 0⟩ } }

/-- Witness for C3 on a ball falling to height 600.5 > 500. -/
theorem C3_missed_condition_witness :
    (frameStep 0 exampleMissing).phase = .MISSED :=
  (C3_missed_condition 0 exampleMissing rfl).1.mpr
    (Or.inl (by norm_num [exampleMissing, initState, integrate, GRAVITY,
      AIR_RESISTANCE, WIND_FACTOR]))

end Renglaji
